import Mathlib

/-!
Verification development for the sdrplay Go package (package `sdrplay`,
files `exported.go` and the cgo bridge file).  The Go code is shallowly
embedded: Go `float64` values are modelled by `ℚ` (every numeric literal the
package manipulates is exactly representable, and only equality and order of
such literals are ever used), Go `int`/`C.int` by `ℤ`, Go slices of `int16`
by `List ℤ`, and a Go `error` interface value by `Option goError` (`none` is
the nil interface).  Hardware calls are opaque: each embedded operation takes
the status code the driver would return as an explicit argument and records
which call, if any, it issued.  Constants taken from the external C header
`mirsdrapi-rsp.h` (the `mir_sdr_BandT`, `mir_sdr_ReasonForReinitT` and
`mir_sdr_ErrT` enumerations, declared there in order from zero) are spelled
out as definitions below.
-/

namespace Sdrplay

/-- Go type alias `enable` (a `bool` passed to the API). -/
abbrev enable := Bool

/-- Go type alias `double` (`float64`), modelled by `ℚ`. -/
abbrev double := ℚ

/-- Go type alias `integer` (`int`). -/
abbrev integer := ℤ

/-- Go type `B`: the admissible bandwidths, an `int`-backed enumeration. -/
abbrev B := ℤ

def BW200 : B := 200

def BW300 : B := 300

def BW600 : B := 600

def BW1536 : B := 1536

def BW5000 : B := 5000

def BW6000 : B := 6000

def BW7000 : B := 7000

def BW8000 : B := 8000

/-- Go type `IFmode`: the admissible intermediate frequencies. -/
abbrev IFmode := ℤ

def IFzero : IFmode := 0

def IF450 : IFmode := 450

def IF1620 : IFmode := 1620

def IF2048 : IFmode := 2048

/-- Go type `OffsetMode`: the DC-offset correction method (iota-valued). -/
abbrev OffsetMode := ℤ

def None : OffsetMode := 0

def Static : OffsetMode := 1

def Periodic6ms : OffsetMode := 2

def Periodic12ms : OffsetMode := 3

def Periodic24ms : OffsetMode := 4

def OneShot : OffsetMode := 5

def Continuous : OffsetMode := 6

/-- Go type `LOfrequency`: the up-converter local-oscillator mode (iota-valued). -/
abbrev LOfrequency := ℤ

def LOundefined : LOfrequency := 0

def LOauto : LOfrequency := 1

def LO120MHz : LOfrequency := 2

def LO144MHz : LOfrequency := 3

def LO168MHz : LOfrequency := 4

/-- Go type `Decimation`: the decimation factor; the Go source assigns
`Factor0 = 0` and `FactorN = 1 << (iota + 1)` from `iota = 1` on. -/
abbrev Decimation := ℤ

def Factor0 : Decimation := 0

def Factor2 : Decimation := 4

def Factor4 : Decimation := 8

def Factor8 : Decimation := 16

def Factor16 : Decimation := 32

def Factor32 : Decimation := 64

def Factor64 : Decimation := 128

/-- Go type `AGCmode` (iota-valued). -/
abbrev AGCmode := ℤ

def Disable : AGCmode := 0

def AGC100Hz : AGCmode := 1

def AGC50Hz : AGCmode := 2

def AGC5Hz : AGCmode := 3

/-- Go struct `features`: every configurable parameter of the RSP, in source
field order.  The Go zero value of the struct is `featZero` below. -/
structure features where
  FS : double
  BW : B
  IF : IFmode
  IQimbalance : enable
  DCoffset : enable
  DCmode : OffsetMode
  DCTrakTime : integer
  LOppm : double
  LOmode : LOfrequency
  Decimate : enable
  Factor : Decimation
  LNA : enable
  AGC : AGCmode
  DBFS : integer
  InitialGR : integer
  InitialRF : double
  Debug : enable
deriving DecidableEq, Repr

/-- Go `features{}`: the zero value every construction starts from
(`rsp = features{}` in the `RSP` function). -/
def featZero : features :=
  { FS := 0, BW := 0, IF := 0, IQimbalance := false, DCoffset := false,
    DCmode := 0, DCTrakTime := 0, LOppm := 0, LOmode := 0, Decimate := false,
    Factor := 0, LNA := false, AGC := 0, DBFS := 0, InitialGR := 0,
    InitialRF := 0, Debug := false }

/-- Go type `Option` (renamed: `Option` is taken in Lean): a configuration
option is a deferred mutation of the staged `features` value; the Go closure
`apply` writing the package-global `rsp` becomes a function on `features`. -/
abbrev Opt := features → features

/-- Go `configure(opts ...Option)`: applies each option in order to the
staged configuration. -/
def configure (c : features) (opts : List Opt) : features :=
  opts.foldl (fun acc o => o acc) c

def Bandwidth (bw : B) : Opt := fun rsp => { rsp with BW := bw }

def IF (ifreq : IFmode) : Opt := fun rsp => { rsp with IF := ifreq }

def FS (hz : double) : Opt := fun rsp => { rsp with FS := hz }

def IQimbalance (enabled : Bool) : Opt := fun rsp => { rsp with IQimbalance := enabled }

def DCoffset (enabled : Bool) : Opt := fun rsp => { rsp with DCoffset := enabled }

def DCmode (mode : OffsetMode) : Opt := fun rsp => { rsp with DCmode := mode }

/-- Go `DCtrackTime`: the clamped value the option will store.  The Go source
computes `tt` by a `switch` on `trackTime` before building the option, so the
clamp happens at option-construction time; the returned closure only writes
the precomputed `tt`. -/
def DCtrackTimeStored (trackTime : ℤ) : ℤ :=
  if trackTime < 1 then 1
  else if trackTime > 63 then 63
  else trackTime

/-- Go `DCtrackTime(trackTime int) Option`: stores the precomputed clamp. -/
def DCtrackTime (trackTime : ℤ) : Opt :=
  let tt := DCtrackTimeStored trackTime
  fun rsp => { rsp with DCTrakTime := tt }

def LOppm (ppm : double) : Opt := fun rsp => { rsp with LOppm := ppm }

def LOmode (loMode : LOfrequency) : Opt := fun rsp => { rsp with LOmode := loMode }

def Decimate (enabled : Bool) (factor : Decimation) : Opt :=
  fun rsp => { rsp with Decimate := enabled, Factor := factor }

def LNA (enabled : Bool) : Opt := fun rsp => { rsp with LNA := enabled }

def AGC (mode : AGCmode) (dBFS : ℤ) : Opt :=
  fun rsp => { rsp with AGC := mode, DBFS := dBFS }

def InitialGR (dB : ℤ) : Opt := fun rsp => { rsp with InitialGR := dB }

def InitialRF (frequency : double) : Opt := fun rsp => { rsp with InitialRF := frequency }

def Debug (enabled : Bool) : Opt := fun rsp => { rsp with Debug := enabled }

/-- Go `fm102MHz`: the default configuration applied when `RSP` is called
with no options. -/
def fm102MHz : List Opt :=
  [InitialRF 102, FS 2.048, Bandwidth BW1536, IF IFzero, LOmode LOauto]

/-- The default `features` value: `configure(fm102MHz...)` applied to the Go
zero value of the struct. -/
def defaultFeat : features := configure featZero fm102MHz

/-- Go `error` values the package can produce: the two sentinel errors and a
device status code wrapped through the `Error()` method of `C.mir_sdr_ErrT`. -/
inductive goError where
  | deactivated
  | unplugged
  | status (e : ℤ)
deriving DecidableEq, Repr

/-- Go `toError(e C.mir_sdr_ErrT) error`: `mir_sdr_Success` (0) maps to the
nil error interface, anything else is returned as an error value. -/
def toError (e : ℤ) : Option goError :=
  if e = 0 then none else some (goError.status e)

/-! Constants of the external `mir_sdr_BandT` enumeration (declared in
`mirsdrapi-rsp.h` in this order from zero). -/

def mir_sdr_BAND_AM_LO : ℤ := 0

def mir_sdr_BAND_AM_MID : ℤ := 1

def mir_sdr_BAND_AM_HI : ℤ := 2

def mir_sdr_BAND_VHF : ℤ := 3

def mir_sdr_BAND_3 : ℤ := 4

def mir_sdr_BAND_X : ℤ := 5

def mir_sdr_BAND_4_5 : ℤ := 6

def mir_sdr_BAND_L : ℤ := 7

/-! Constants of the external `mir_sdr_ReasonForReinitT` bit-flag enumeration
(`mirsdrapi-rsp.h`: NONE, GR, FS_FREQ, RF_FREQ, BW_TYPE, IF_TYPE, LO_MODE as
successive powers of two). -/

def mir_sdr_CHANGE_NONE : ℕ := 0

def mir_sdr_CHANGE_GR : ℕ := 1

def mir_sdr_CHANGE_FS_FREQ : ℕ := 2

def mir_sdr_CHANGE_RF_FREQ : ℕ := 4

def mir_sdr_CHANGE_BW_TYPE : ℕ := 8

def mir_sdr_CHANGE_IF_TYPE : ℕ := 16

def mir_sdr_CHANGE_LO_MODE : ℕ := 32

/-- Go `band(f float64) int`: the band classifier, a switch over contiguous
half-open frequency ranges returning `mir_sdr_BandT` values, `-1` out of
range.  Each case keeps the double-sided condition of the source. -/
def band (f : double) : ℤ :=
  if f < 12000000 then mir_sdr_BAND_AM_LO
  else if 12000000 ≤ f ∧ f < 30000000 then mir_sdr_BAND_AM_MID
  else if 30000000 ≤ f ∧ f < 60000000 then mir_sdr_BAND_AM_HI
  else if 60000000 ≤ f ∧ f < 120000000 then mir_sdr_BAND_VHF
  else if 120000000 ≤ f ∧ f < 250000000 then mir_sdr_BAND_3
  else if 250000000 ≤ f ∧ f < 420000000 then mir_sdr_BAND_X
  else if 420000000 ≤ f ∧ f < 1000000000 then mir_sdr_BAND_4_5
  else if 1000000000 ≤ f ∧ f < 2000000000 then mir_sdr_BAND_L
  else -1

/-- Go struct `radio`: the state of the one RSP unit.  The `baseband`
connector is modelled by its presence (`Bool`); the `C.int` cells behind the
`gr`, `grsys`, `spp` pointers are inlined as their integer contents. -/
structure radio where
  baseband : Bool
  rf : double
  band : ℤ
  gr : integer
  grsys : integer
  spp : integer
  useGrAltMode : ℤ
  feat : features
deriving DecidableEq, Repr

/-- Go `newRadio()`: a fresh `radio` with freshly allocated (zeroed) `C.int`
cells; every field is the Go zero value. -/
def newRadio : radio :=
  { baseband := false, rf := 0, band := 0, gr := 0, grsys := 0, spp := 0,
    useGrAltMode := 0, feat := featZero }

/-- The hardware call an operation issued, with the arguments the claims are
about: the cheap `mir_sdr_SetRf` (frequency in Hz) or a `mir_sdr_Reinit`
carrying only an RF frequency in MHz and a reason mask (the form `Tune`
uses, all other parameters zero or nil). -/
inductive hwCall where
  | setRf (freqHz : double)
  | reinitRf (rfMHz : double) (reason : ℕ)
deriving DecidableEq, Repr

/-- Result of `Tune`: the radio afterwards, the returned Go error, and the
hardware call issued (none when the call was short-circuited). -/
structure TuneResult where
  r : radio
  err : Option goError
  call : Option hwCall
deriving DecidableEq, Repr

/-- Go `(r *radio) Tune(frequency float64) error`, with the driver's status
for the one hardware call supplied as `hwStatus`. -/
def Tune (r : radio) (frequency : double) (hwStatus : ℤ) : TuneResult :=
  if r.baseband = false then ⟨r, some goError.deactivated, none⟩
  else
    let nb := band frequency
    if nb = r.band then ⟨r, toError hwStatus, some (hwCall.setRf frequency)⟩
    else
      ⟨{ r with band := nb }, toError hwStatus,
        some (hwCall.reinitRf (frequency / 1000000) mir_sdr_CHANGE_RF_FREQ)⟩

/-- Result of `Gain`: the radio afterwards, the returned Go error, and
whether the `mir_sdr_SetGrAltMode` call was issued. -/
structure GainResult where
  r : radio
  err : Option goError
  called : Bool
deriving DecidableEq, Repr

/-- Go `(r *radio) Gain(reduction int) error`. -/
def Gain (r : radio) (reduction : ℤ) (hwStatus : ℤ) : GainResult :=
  if r.baseband = false then ⟨r, some goError.deactivated, false⟩
  else ⟨{ r with gr := reduction }, toError hwStatus, true⟩

/-- The reason mask `SetUp` builds by oring one reason bit per changed field
category, exactly as the source's six `if` statements do. -/
def reasonMask (rsp feat : features) : ℕ :=
  (if rsp.InitialGR ≠ feat.InitialGR ∨ rsp.LNA ≠ feat.LNA then mir_sdr_CHANGE_GR else 0) |||
  (if rsp.FS ≠ feat.FS then mir_sdr_CHANGE_FS_FREQ else 0) |||
  (if rsp.InitialRF ≠ feat.InitialRF then mir_sdr_CHANGE_RF_FREQ else 0) |||
  (if rsp.BW ≠ feat.BW then mir_sdr_CHANGE_BW_TYPE else 0) |||
  (if rsp.IF ≠ feat.IF then mir_sdr_CHANGE_IF_TYPE else 0) |||
  (if rsp.LOmode ≠ feat.LOmode then mir_sdr_CHANGE_LO_MODE else 0)

/-- Result of `SetUp`: the radio afterwards, the returned Go error, whether
the full `mir_sdr_Reinit` was issued and with which reason mask, and whether
the cheap DC-mode/track-time and ppm updates were issued. -/
structure SetUpResult where
  r : radio
  err : Option goError
  reinitCalled : Bool
  reason : ℕ
  dcCall : Bool
  ppmCall : Bool
deriving DecidableEq, Repr

/-- Go `(r *radio) SetUp(opts ...Option) error`.  `rsp` is the staged
global configuration after `configure(opts...)` ran; `reinitStatus` is the
driver's status for the `mir_sdr_Reinit` call, if one is issued.  The source
commits `r.feat = rsp` before deciding whether to reinit. -/
def SetUp (r : radio) (rsp : features) (reinitStatus : ℤ) : SetUpResult :=
  if r.baseband = false then ⟨r, some goError.deactivated, false, 0, false, false⟩
  else
    let dcCall := decide (rsp.DCmode ≠ r.feat.DCmode ∧ rsp.DCmode ≠ None)
    let ppmCall := decide (rsp.LOppm ≠ r.feat.LOppm ∧ rsp.LOppm ≠ 0)
    let reason := reasonMask rsp r.feat
    let r1 := { r with feat := rsp }
    if reason ≠ mir_sdr_CHANGE_NONE then
      ⟨{ r1 with gr := rsp.InitialGR, grsys := 0, spp := 0, useGrAltMode := 1 },
        toError reinitStatus, true, reason, dcCall, ppmCall⟩
    else ⟨r1, none, false, reason, dcCall, ppmCall⟩

/-- Go `(r *radio) uninit() error`: the source returns the raw
`C.mir_sdr_StreamUninit()` value as a Go `error` interface.  A concrete
non-pointer value stored in an interface is never the nil interface, so the
result is non-nil even when the status is `mir_sdr_Success`; the model
therefore wraps every status, 0 included. -/
def uninit (status : ℤ) : Option goError :=
  some (goError.status status)

/-- Result of the `RSP` construction function: the package globals `rx` and
`rsp` afterwards, the state the previous handle was left in (`old`), the
returned receiver and the returned Go error. -/
structure RSPResult where
  rx : Option radio
  rsp : features
  old : Option radio
  ret : Option radio
  err : Option goError
deriving DecidableEq, Repr

/-- The tail of `RSP` once any previous receiver was handled: `newRadio()`,
reset the staged configuration to the zero value, apply the defaults then
the caller's options, install the connector, and run `(rx).init()` whose
register writes and `streamInit` status are inlined. -/
def RSPinstall (old : Option radio) (opts : List Opt) (initStatus : ℤ) : RSPResult :=
  let staged := configure (configure featZero fm102MHz) opts
  let r0 : radio := { newRadio with feat := staged, baseband := true }
  let r1 : radio := { r0 with gr := staged.InitialGR, grsys := 0, spp := 0, useGrAltMode := 1 }
  ⟨some r1, staged, old, some r1, toError initStatus⟩

/-- Go `RSP(baseband Connector, opts ...Option) (Receiver, error)`.
`rx0`/`rsp0` are the package globals before the call, `basebandPresent`
whether the supplied connector is non-nil, and `uninitStatus`/`initStatus`
the driver statuses for the stream-uninit and stream-init round trips. -/
def RSP (rx0 : Option radio) (rsp0 : features) (basebandPresent : Bool)
    (opts : List Opt) (uninitStatus initStatus : ℤ) : RSPResult :=
  if basebandPresent = false then ⟨rx0, rsp0, rx0, none, some goError.unplugged⟩
  else
    match rx0 with
    | some r =>
      match uninit uninitStatus with
      | some e => ⟨some r, rsp0, some r, none, some e⟩
      | none => RSPinstall (some { r with baseband := false }) opts initStatus
    | none => RSPinstall none opts initStatus

/-- Go `StreamCallback` (exported.go): the driver upcall.  Arguments follow
the source signature (`xi`, `xq`, `firstSampleNum`, `grChanged`, `rfChanged`,
`fsChanged`, `numSample`, `reset`), plus whether `rx.baseband` is non-nil.
The result is what reaches the connector: `none` when the batch is dropped,
otherwise the pair of freshly copied buffers passed to `Propagate`.  The
source builds both buffers from the first `numSample` entries of `xi` (the
second slice is taken from `xi` as well, not from `xq`). -/
def StreamCallback (xi xq : List ℤ) (firstSampleNum : ℕ)
    (grChanged rfChanged fsChanged : ℤ) (numSample : ℕ) (reset : ℤ)
    (basebandPresent : Bool) : Option (List ℤ × List ℤ) :=
  if grChanged = 1 ∨ fsChanged = 1 ∨ reset = 1 ∨ basebandPresent = false then none
  else some (xi.take numSample, xi.take numSample)

/-- Go `errDesc`: the eleven-entry table mapping `mir_sdr_ErrT` codes (0..10
in `mirsdrapi-rsp.h` declaration order) to descriptions. -/
def errDesc : List String :=
  [ ("Success"), ("Fail"), ("Invalid Param"), ("Out of Range"),
    ("Gain Update error"), ("RF Update error"), ("FS Update error"),
    ("HW error"), ("Aliasing error"), ("Already Initialised"),
    ("Not Initialised") ]

/-- Go `func (e C.mir_sdr_ErrT) Error() string`: `errDesc[e]`, a positional
array index.  An index outside `0..10` is a Go runtime bounds panic, which
the model renders as `none`. -/
def ErrTError (e : ℤ) : Option String :=
  if 0 ≤ e then errDesc.get? e.toNat else none

/-- The receiver `RSP(connector)` installs when called with a connector and
no options: default configuration, connector present, registers seeded by
`init()`; its `band` field is the Go zero value, never classified from the
initial RF. -/
def rx1 : radio :=
  { baseband := true, rf := 0, band := 0, gr := defaultFeat.InitialGR,
    grsys := 0, spp := 0, useGrAltMode := 1, feat := defaultFeat }

/-- The receiver after `Tune(100e6)` on `rx1` (band recorded as VHF). -/
def rx2 : radio := (Tune rx1 100000000 0).r

/-- An active receiver whose configuration is the zero value: the shape any
receiver has once `RSP` installed it, with the simplest feature set. -/
def rxZ : radio := { newRadio with baseband := true }

/-- A staged configuration differing from the zero configuration only in the
sample rate, used to drive the full-reinit path of `SetUp`. -/
def stagedFS : features := { featZero with FS := 3 }

/-! ## Helper lemmas -/

/-- Bit contents of the reason mask: each of the six reinit-triggering field
categories occupies its own bit, and no bit above the sixth is ever set. -/
lemma reasonMask_bits (s a : features) :
    ((reasonMask s a).testBit 0 = true ↔ s.InitialGR ≠ a.InitialGR ∨ s.LNA ≠ a.LNA) ∧
    ((reasonMask s a).testBit 1 = true ↔ s.FS ≠ a.FS) ∧
    ((reasonMask s a).testBit 2 = true ↔ s.InitialRF ≠ a.InitialRF) ∧
    ((reasonMask s a).testBit 3 = true ↔ s.BW ≠ a.BW) ∧
    ((reasonMask s a).testBit 4 = true ↔ s.IF ≠ a.IF) ∧
    ((reasonMask s a).testBit 5 = true ↔ s.LOmode ≠ a.LOmode) ∧
    reasonMask s a < 64 := by
  unfold reasonMask mir_sdr_CHANGE_GR mir_sdr_CHANGE_FS_FREQ mir_sdr_CHANGE_RF_FREQ
    mir_sdr_CHANGE_BW_TYPE mir_sdr_CHANGE_IF_TYPE mir_sdr_CHANGE_LO_MODE
  split_ifs with h1 h2 h3 h4 h5 h6 <;> simp_all <;> decide

/-- A staged configuration equal to the active one produces the empty mask. -/
lemma reasonMask_self (a : features) : reasonMask a a = 0 := by
  unfold reasonMask
  simp

/-- When the mask is empty, `SetUp` issues no reinit and returns success. -/
lemma setUp_no_reinit (r : radio) (s : features) (st : ℤ)
    (hb : r.baseband = true) (h : reasonMask s r.feat = 0) :
    (SetUp r s st).reinitCalled = false ∧ (SetUp r s st).err = none := by
  unfold SetUp mir_sdr_CHANGE_NONE
  simp [hb, h]

/-- When only the initial RF frequency category changed, the mask is exactly
the frequency-change bit. -/
lemma reasonMask_only_rf (s a : features)
    (h1 : s.InitialGR = a.InitialGR) (h2 : s.LNA = a.LNA) (h3 : s.FS = a.FS)
    (h4 : s.BW = a.BW) (h5 : s.IF = a.IF) (h6 : s.LOmode = a.LOmode)
    (h7 : s.InitialRF ≠ a.InitialRF) : reasonMask s a = 4 := by
  unfold reasonMask mir_sdr_CHANGE_GR mir_sdr_CHANGE_FS_FREQ mir_sdr_CHANGE_RF_FREQ
    mir_sdr_CHANGE_BW_TYPE mir_sdr_CHANGE_IF_TYPE mir_sdr_CHANGE_LO_MODE
  simp [h1, h2, h3, h4, h5, h6, h7]

/-! ## Claims -/

/-- C1: in the stream callback, a clean batch should deliver the driver's I
array and the driver's Q array as two independently owned copies; the code
instead slices `xi` for both buffers, so the delivered Q buffer is a second
copy of the I array, not the contents of `xq`.  At `xi = [1, 2]`,
`xq = [3, 4]`, `numSample = 2`, no flags, connector present, the connector
receives `([1, 2], [1, 2])` and never sees `[3, 4]`. -/
theorem C1_streamCallback_q_copies_xi :
    StreamCallback [1, 2] [3, 4] 0 0 0 0 2 0 true = some ([1, 2], [1, 2]) ∧
    ¬ StreamCallback [1, 2] [3, 4] 0 0 0 0 2 0 true = some ([1, 2], [3, 4]) := by
  decide

/-- C2 counterexample: a batch flagged only with `rfChanged = 1` (all other
flags zero, connector present) is not dropped: it reaches the connector. -/
theorem C2_cex_rfChanged_batch_delivered :
    StreamCallback [5] [6] 0 0 1 0 1 0 true = some ([5], [5]) := by
  decide

/-- C2 (amended): a stream callback batch is dropped unprocessed exactly when
`grChanged = 1`, `fsChanged = 1`, `reset = 1`, or the receiver has no
connector; the `rfChanged` flag is not consulted. -/
theorem C2_drop_condition (xi xq : List ℤ) (fsn : ℕ) (gr rf fs : ℤ) (n : ℕ)
    (rs : ℤ) (bb : Bool) :
    StreamCallback xi xq fsn gr rf fs n rs bb = none ↔
      gr = 1 ∨ fs = 1 ∨ rs = 1 ∨ bb = false := by
  unfold StreamCallback
  split_ifs with h <;> simp [h]

/-- C3: the `SetUp` reason mask carries exactly one bit per changed field
category (gain-reduction-or-LNA, sample rate, initial RF, bandwidth, IF mode,
LO mode) and no other bit; an identical staged configuration gives the empty
mask, no reinit call and success; a configuration differing only in the
initial RF gives exactly the frequency-change bit. -/
theorem C3_reason_mask_exact (s a : features) :
    reasonMask s a < 64 ∧
    ((reasonMask s a).testBit 0 = true ↔ s.InitialGR ≠ a.InitialGR ∨ s.LNA ≠ a.LNA) ∧
    ((reasonMask s a).testBit 1 = true ↔ s.FS ≠ a.FS) ∧
    ((reasonMask s a).testBit 2 = true ↔ s.InitialRF ≠ a.InitialRF) ∧
    ((reasonMask s a).testBit 3 = true ↔ s.BW ≠ a.BW) ∧
    ((reasonMask s a).testBit 4 = true ↔ s.IF ≠ a.IF) ∧
    ((reasonMask s a).testBit 5 = true ↔ s.LOmode ≠ a.LOmode) ∧
    (s = a → reasonMask s a = 0) ∧
    (∀ (r : radio) (st : ℤ), r.baseband = true → r.feat = a → reasonMask s a = 0 →
      (SetUp r s st).reinitCalled = false ∧ (SetUp r s st).err = none) ∧
    (s.InitialGR = a.InitialGR → s.LNA = a.LNA → s.FS = a.FS → s.BW = a.BW →
      s.IF = a.IF → s.LOmode = a.LOmode → s.InitialRF ≠ a.InitialRF →
      reasonMask s a = 4) := by
  obtain ⟨b0, b1, b2, b3, b4, b5, blt⟩ := reasonMask_bits s a
  refine ⟨blt, b0, b1, b2, b3, b4, b5, ?_, ?_, ?_⟩
  · rintro rfl
    exact reasonMask_self s
  · intro r st hb hf hm
    exact setUp_no_reinit r s st hb (by rw [hf]; exact hm)
  · intro h1 h2 h3 h4 h5 h6 h7
    exact reasonMask_only_rf s a h1 h2 h3 h4 h5 h6 h7

/-- C4 counterexample: on an active receiver, staging a different sample
rate with a failing reinit (status 1, Fail) returns the mapped error, yet
the active configuration has already been replaced by the staged one. -/
theorem C4_cex_feat_changed_on_failure :
    (SetUp rxZ stagedFS 1).err = some (goError.status 1) ∧
    (SetUp rxZ stagedFS 1).r.feat ≠ rxZ.feat ∧
    (SetUp rxZ stagedFS 1).r.feat = stagedFS := by
  decide

/-- C4 (amended): `SetUp` commits the staged configuration as the active one
unconditionally, before the reinit call; when the mask is non-empty the
reinit is issued, its status is returned mapped, and the gain-reduction,
system-gain and samples-per-packet registers have already been reset. -/
theorem C4_feat_committed_before_reinit (r : radio) (s : features) (st : ℤ)
    (hb : r.baseband = true) :
    (SetUp r s st).r.feat = s ∧
    (reasonMask s r.feat ≠ 0 →
      (SetUp r s st).reinitCalled = true ∧ (SetUp r s st).err = toError st ∧
      (SetUp r s st).r.gr = s.InitialGR ∧ (SetUp r s st).r.grsys = 0 ∧
      (SetUp r s st).r.spp = 0) := by
  unfold SetUp mir_sdr_CHANGE_NONE
  simp only [hb]
  split_ifs with h <;> simp_all

/-- C4 witness: the amended statement at an active receiver, a staged
configuration with a changed sample rate, and a failing reinit. -/
theorem C4_feat_committed_witness :
    (SetUp rxZ stagedFS 1).r.feat = stagedFS ∧
    (SetUp rxZ stagedFS 1).err = toError 1 := by
  have h := C4_feat_committed_before_reinit rxZ stagedFS 1 (by decide)
  exact ⟨h.1, (h.2 (by decide)).2.1⟩

/-- C5 counterexample: the receiver constructed by `RSP` with the default
configuration (initial RF 102 MHz) has band field 0 (the Go zero value,
never classified from the initial RF), so the first `Tune(100e6)` issues the
full reinitialization, not the lightweight set-center-frequency call. -/
theorem C5_cex_first_tune_reinits :
    (RSP none featZero true [] 0 0).ret = some rx1 ∧
    (Tune rx1 100000000 0).call =
      some (hwCall.reinitRf (100000000 / 1000000) mir_sdr_CHANGE_RF_FREQ) ∧
    (100000000 : ℚ) / 1000000 = 100 ∧
    ¬ (Tune rx1 100000000 0).call = some (hwCall.setRf 100000000) := by
  refine ⟨rfl, rfl, by norm_num, by decide⟩

/-- C5 (amended): `Tune` on an active receiver takes the cheap
set-center-frequency path exactly when the classified band equals the stored
band, and otherwise records the new band and issues a full reinit with
reason frequency-change only, carrying the frequency divided by 1e6;
but the constructed receiver's stored band starts at the Go zero value, so
on the default receiver `Tune(100e6)` takes the full-reinit path and only
the following `Tune(110e6)` goes via the cheap path, while `Tune(50e6)` and
a following `Tune(70e6)` both take the full-reinit path. -/
theorem C5_tune_paths (r : radio) (f : double) (st : ℤ)
    (hb : r.baseband = true) :
    (band f = r.band →
      Tune r f st = ⟨r, toError st, some (hwCall.setRf f)⟩) ∧
    (band f ≠ r.band →
      Tune r f st = ⟨{ r with band := band f }, toError st,
        some (hwCall.reinitRf (f / 1000000) mir_sdr_CHANGE_RF_FREQ)⟩) ∧
    (Tune rx1 100000000 0).call =
      some (hwCall.reinitRf (100000000 / 1000000) mir_sdr_CHANGE_RF_FREQ) ∧
    (Tune rx2 110000000 0).call = some (hwCall.setRf 110000000) ∧
    (Tune rx2 110000000 0).r = rx2 ∧
    (Tune rx1 50000000 0).call =
      some (hwCall.reinitRf (50000000 / 1000000) mir_sdr_CHANGE_RF_FREQ) ∧
    (Tune (Tune rx1 50000000 0).r 70000000 0).call =
      some (hwCall.reinitRf (70000000 / 1000000) mir_sdr_CHANGE_RF_FREQ) := by
  refine ⟨?_, ?_, rfl, rfl, rfl, rfl, rfl⟩
  · intro h
    unfold Tune
    simp [hb, h]
  · intro h
    unfold Tune
    simp [hb, h]

/-- C5 witness: on the default receiver after `Tune(100e6)`, the next
`Tune(110e6)` is in the same band and goes via the cheap path. -/
theorem C5_tune_paths_witness :
    Tune rx2 110000000 0 = ⟨rx2, toError 0, some (hwCall.setRf 110000000)⟩ := by
  have h := C5_tune_paths rx2 110000000 0 (by decide)
  exact h.1 (by decide)

/-- C6: the claim expects a successful second `RSP` call to deactivate the
first handle; but `uninit()` returns the raw `mir_sdr_StreamUninit` status
as a Go error interface, which is non-nil even for status `mir_sdr_Success`
(0), so the second construction always aborts with that error before the
line clearing the first receiver's connector: the first handle keeps its
connector and `Tune` on it does not return `DeactivatedReceiverError`. -/
theorem C6_second_construction_always_aborts :
    (RSP (some rx1) defaultFeat true [] 0 0).err = some (goError.status 0) ∧
    (RSP (some rx1) defaultFeat true [] 0 0).ret = none ∧
    (RSP (some rx1) defaultFeat true [] 0 0).old = some rx1 ∧
    rx1.baseband = true ∧
    ¬ (Tune rx1 100000000 0).err = some goError.deactivated := by
  refine ⟨rfl, rfl, rfl, rfl, by decide⟩

/-- C7: the `DCtrackTime` option stores the clamp of its input to `[1, 63]`,
and the clamp is computed when the option is constructed: applying the
option to any configuration writes exactly the precomputed
`DCtrackTimeStored` value; inputs 0, 100, 30 store 1, 63, 30. -/
theorem C7_DCtrackTime_clamps (t : ℤ) (c : features) :
    (DCtrackTime t c).DCTrakTime = DCtrackTimeStored t ∧
    DCtrackTimeStored t = max 1 (min 63 t) ∧
    1 ≤ DCtrackTimeStored t ∧ DCtrackTimeStored t ≤ 63 ∧
    (DCtrackTime 0 c).DCTrakTime = 1 ∧
    (DCtrackTime 100 c).DCTrakTime = 63 ∧
    (DCtrackTime 30 c).DCTrakTime = 30 := by
  refine ⟨rfl, ?_, ?_, ?_, rfl, rfl, rfl⟩ <;>
    (unfold DCtrackTimeStored; split_ifs <;> omega)

/-- C8: the band classifier is a pure total function returning one of nine
pairwise distinct outcomes, one per contiguous half-open range, with the
out-of-range marker `-1` for every frequency at or above 2000e6;
`band(11e6)` is the lowest range and `band(2500e6)` is out of range. -/
theorem C8_band_classifier (f : double) :
    (f < 12000000 → band f = mir_sdr_BAND_AM_LO) ∧
    (12000000 ≤ f ∧ f < 30000000 → band f = mir_sdr_BAND_AM_MID) ∧
    (30000000 ≤ f ∧ f < 60000000 → band f = mir_sdr_BAND_AM_HI) ∧
    (60000000 ≤ f ∧ f < 120000000 → band f = mir_sdr_BAND_VHF) ∧
    (120000000 ≤ f ∧ f < 250000000 → band f = mir_sdr_BAND_3) ∧
    (250000000 ≤ f ∧ f < 420000000 → band f = mir_sdr_BAND_X) ∧
    (420000000 ≤ f ∧ f < 1000000000 → band f = mir_sdr_BAND_4_5) ∧
    (1000000000 ≤ f ∧ f < 2000000000 → band f = mir_sdr_BAND_L) ∧
    (2000000000 ≤ f → band f = -1) ∧
    ([mir_sdr_BAND_AM_LO, mir_sdr_BAND_AM_MID, mir_sdr_BAND_AM_HI,
      mir_sdr_BAND_VHF, mir_sdr_BAND_3, mir_sdr_BAND_X, mir_sdr_BAND_4_5,
      mir_sdr_BAND_L, -1] : List ℤ).Nodup ∧
    band 11000000 = mir_sdr_BAND_AM_LO ∧
    band 2500000000 = -1 := by
  refine ⟨fun h => ?_, fun h => ?_, fun h => ?_, fun h => ?_, fun h => ?_,
    fun h => ?_, fun h => ?_, fun h => ?_, fun h => ?_, by decide, by decide,
    by decide⟩
  · unfold band
    rw [if_pos h]
  · obtain ⟨h1, h2⟩ := h
    unfold band
    rw [if_neg (by linarith), if_pos ⟨h1, h2⟩]
  · obtain ⟨h1, h2⟩ := h
    unfold band
    rw [if_neg (by linarith),
      if_neg (show ¬(12000000 ≤ f ∧ f < 30000000) by rintro ⟨a, b⟩; linarith),
      if_pos ⟨h1, h2⟩]
  · obtain ⟨h1, h2⟩ := h
    unfold band
    rw [if_neg (by linarith),
      if_neg (show ¬(12000000 ≤ f ∧ f < 30000000) by rintro ⟨a, b⟩; linarith),
      if_neg (show ¬(30000000 ≤ f ∧ f < 60000000) by rintro ⟨a, b⟩; linarith),
      if_pos ⟨h1, h2⟩]
  · obtain ⟨h1, h2⟩ := h
    unfold band
    rw [if_neg (by linarith),
      if_neg (show ¬(12000000 ≤ f ∧ f < 30000000) by rintro ⟨a, b⟩; linarith),
      if_neg (show ¬(30000000 ≤ f ∧ f < 60000000) by rintro ⟨a, b⟩; linarith),
      if_neg (show ¬(60000000 ≤ f ∧ f < 120000000) by rintro ⟨a, b⟩; linarith),
      if_pos ⟨h1, h2⟩]
  · obtain ⟨h1, h2⟩ := h
    unfold band
    rw [if_neg (by linarith),
      if_neg (show ¬(12000000 ≤ f ∧ f < 30000000) by rintro ⟨a, b⟩; linarith),
      if_neg (show ¬(30000000 ≤ f ∧ f < 60000000) by rintro ⟨a, b⟩; linarith),
      if_neg (show ¬(60000000 ≤ f ∧ f < 120000000) by rintro ⟨a, b⟩; linarith),
      if_neg (show ¬(120000000 ≤ f ∧ f < 250000000) by rintro ⟨a, b⟩; linarith),
      if_pos ⟨h1, h2⟩]
  · obtain ⟨h1, h2⟩ := h
    unfold band
    rw [if_neg (by linarith),
      if_neg (show ¬(12000000 ≤ f ∧ f < 30000000) by rintro ⟨a, b⟩; linarith),
      if_neg (show ¬(30000000 ≤ f ∧ f < 60000000) by rintro ⟨a, b⟩; linarith),
      if_neg (show ¬(60000000 ≤ f ∧ f < 120000000) by rintro ⟨a, b⟩; linarith),
      if_neg (show ¬(120000000 ≤ f ∧ f < 250000000) by rintro ⟨a, b⟩; linarith),
      if_neg (show ¬(250000000 ≤ f ∧ f < 420000000) by rintro ⟨a, b⟩; linarith),
      if_pos ⟨h1, h2⟩]
  · obtain ⟨h1, h2⟩ := h
    unfold band
    rw [if_neg (by linarith),
      if_neg (show ¬(12000000 ≤ f ∧ f < 30000000) by rintro ⟨a, b⟩; linarith),
      if_neg (show ¬(30000000 ≤ f ∧ f < 60000000) by rintro ⟨a, b⟩; linarith),
      if_neg (show ¬(60000000 ≤ f ∧ f < 120000000) by rintro ⟨a, b⟩; linarith),
      if_neg (show ¬(120000000 ≤ f ∧ f < 250000000) by rintro ⟨a, b⟩; linarith),
      if_neg (show ¬(250000000 ≤ f ∧ f < 420000000) by rintro ⟨a, b⟩; linarith),
      if_neg (show ¬(420000000 ≤ f ∧ f < 1000000000) by rintro ⟨a, b⟩; linarith),
      if_pos ⟨h1, h2⟩]
  · unfold band
    rw [if_neg (by linarith),
      if_neg (show ¬(12000000 ≤ f ∧ f < 30000000) by rintro ⟨a, b⟩; linarith),
      if_neg (show ¬(30000000 ≤ f ∧ f < 60000000) by rintro ⟨a, b⟩; linarith),
      if_neg (show ¬(60000000 ≤ f ∧ f < 120000000) by rintro ⟨a, b⟩; linarith),
      if_neg (show ¬(120000000 ≤ f ∧ f < 250000000) by rintro ⟨a, b⟩; linarith),
      if_neg (show ¬(250000000 ≤ f ∧ f < 420000000) by rintro ⟨a, b⟩; linarith),
      if_neg (show ¬(420000000 ≤ f ∧ f < 1000000000) by rintro ⟨a, b⟩; linarith),
      if_neg (show ¬(1000000000 ≤ f ∧ f < 2000000000) by rintro ⟨a, b⟩; linarith)]

/-- C9: the claim expects the status-to-error mapping to be total, with a
distinct unknown-status error for codes outside the eleven-entry taxonomy;
the code indexes the fixed table positionally, so code 11 (one past
`mir_sdr_NotInitialised` = 10) and code -1 are runtime bounds panics
(modelled as `none`), not an unknown-status error, while the in-range codes
map to their descriptions. -/
theorem C9_unknown_status_panics :
    ErrTError 11 = none ∧
    ErrTError (-1) = none ∧
    errDesc.length = 11 ∧
    ErrTError 0 = some ("Success") ∧
    ErrTError 10 = some ("Not Initialised") := by
  refine ⟨rfl, rfl, rfl, rfl, rfl⟩

/-- C10: frame property of `Tune`: the active configuration (`feat`,
including the stored initial RF), the connector reference, the
gain-reduction, system-gain and samples-per-packet registers, the
`useGrAltMode` flag and the `rf` field are all unchanged; the only state
`Tune` can write is the stored `band`, and only when the newly classified
band differs from the current one; `Gain` and `SetUp` never write `rf`
either. -/
theorem C10_tune_frame (r : radio) (f : double) (st : ℤ) :
    (Tune r f st).r.feat = r.feat ∧
    (Tune r f st).r.baseband = r.baseband ∧
    (Tune r f st).r.gr = r.gr ∧
    (Tune r f st).r.grsys = r.grsys ∧
    (Tune r f st).r.spp = r.spp ∧
    (Tune r f st).r.useGrAltMode = r.useGrAltMode ∧
    (Tune r f st).r.rf = r.rf ∧
    ((Tune r f st).r.band = r.band ∨
      ((Tune r f st).r.band = band f ∧ band f ≠ r.band)) ∧
    (∀ (g hs : ℤ), (Gain r g hs).r.rf = r.rf) ∧
    (∀ (s : features) (hs : ℤ), (SetUp r s hs).r.rf = r.rf) := by
  refine ⟨?_, ?_, ?_, ?_, ?_, ?_, ?_, ?_, ?_, ?_⟩
  · simp only [Tune]; split_ifs <;> rfl
  · simp only [Tune]; split_ifs <;> rfl
  · simp only [Tune]; split_ifs <;> rfl
  · simp only [Tune]; split_ifs <;> rfl
  · simp only [Tune]; split_ifs <;> rfl
  · simp only [Tune]; split_ifs <;> rfl
  · simp only [Tune]; split_ifs <;> rfl
  · simp only [Tune]
    split_ifs with h1 h2
    · left
      rfl
    · left
      rfl
    · right
      exact ⟨rfl, h2⟩
  · intro g hs
    unfold Gain
    split_ifs <;> rfl
  · intro s hs
    simp only [SetUp]
    split_ifs <;> rfl

end Sdrplay
